import Mathlib

/-!
# Pipe & Hollow Section Weight Calculator — verification

Shallow embedding of the geometry/weight functions of the repository's two
revisions:

* `App` embeds `app.py` (the revision that hard-codes `PI = 22/7`); its
  circle/square/rectangle/oval calculators are pure rational arithmetic and
  are embedded over `ℚ`; the triangle calculators use `math.sqrt` /
  `math.sin` and are embedded over `ℝ`.
* `Dummy` embeds `dummy.py` (the revision that uses `math.pi`); all of its
  π-dependent calculators are embedded over `ℝ` with `Real.pi`.

Python's float arithmetic is modelled as exact arithmetic on `ℚ` / `ℝ`;
the literal `1e-6` is modelled as the rational `1/1000000`, `math.pi` as
`Real.pi`, `math.sqrt` as `Real.sqrt`, and `math.sin (math.radians 60)` as
`Real.sin (60 * Real.pi / 180)`.

Each calculator returns the same tuple as the Python function:
`weight_circle` returns `(weight, area_mm2, ID)`, `weight_triangle_general`
returns `(weight, wall_area, inradius)`, the rest return `(weight, area)`.
-/

namespace App

/-- `PI = 22/7  # use 22/7 everywhere` (app.py line 60). -/
def PI : ℚ := 22 / 7

/-- Embeds `weight_circle` of app.py (π = 22/7): returns
`(weight, area_mm2, ID)`, or `(0, 0, 0)` when `ID < 0`. -/
def weight_circle (OD thickness density : ℚ) : ℚ × ℚ × ℚ :=
  let ID := OD - 2 * thickness
  if ID < 0 then (0, 0, 0)
  else
    let area_mm2 := (PI / 4) * (OD ^ 2 - ID ^ 2)
    let weight := area_mm2 * (1 / 1000000) * density
    (weight, area_mm2, ID)

/-- Embeds `weight_square` of app.py: returns `(weight, area_mm2)`. -/
def weight_square (OD thickness density : ℚ) : ℚ × ℚ :=
  let ID := OD - 2 * thickness
  if ID < 0 then (0, 0)
  else
    let area_mm2 := OD ^ 2 - ID ^ 2
    let weight := area_mm2 * (1 / 1000000) * density
    (weight, area_mm2)

/-- Embeds `weight_rectangle` of app.py: returns `(weight, area_mm2)`. -/
def weight_rectangle (L W thickness density : ℚ) : ℚ × ℚ :=
  let ID_L := L - 2 * thickness
  let ID_W := W - 2 * thickness
  if ID_L < 0 ∨ ID_W < 0 then (0, 0)
  else
    let area_mm2 := L * W - ID_L * ID_W
    let weight := area_mm2 * (1 / 1000000) * density
    (weight, area_mm2)

/-- Embeds `weight_oval` of app.py (ellipse, π = 22/7): returns
`(weight, area_mm2)`. -/
def weight_oval (major minor thickness density : ℚ) : ℚ × ℚ :=
  let a_o := major / 2
  let b_o := minor / 2
  let a_i := a_o - thickness
  let b_i := b_o - thickness
  if a_i < 0 ∨ b_i < 0 then (0, 0)
  else
    let area_mm2 := PI * a_o * b_o - PI * a_i * b_i
    let weight := area_mm2 * (1 / 1000000) * density
    (weight, area_mm2)

/-- Embeds `weight_triangle_equilateral` of app.py:
`s_i = side - 2*thickness / math.sin(math.radians(60))`, areas via
`(math.sqrt 3 / 4) * s^2`; returns `(weight, area_mm2)`. -/
noncomputable def weight_triangle_equilateral (side thickness density : ℝ) :
    ℝ × ℝ :=
  let s_o := side
  let s_i := side - 2 * thickness / Real.sin (60 * Real.pi / 180)
  if s_i < 0 then (0, 0)
  else
    let outer_area := (Real.sqrt 3 / 4) * s_o ^ 2
    let inner_area := (Real.sqrt 3 / 4) * s_i ^ 2
    let area_mm2 := outer_area - inner_area
    let weight := area_mm2 * (1 / 1000000) * density
    (weight, area_mm2)

/-- Embeds `weight_triangle_general` of app.py: hollow scalene triangle via
Heron's formula and the closed-form wall area
`t*P - t^2 * (s^2 / A0)`; returns `(weight, wall_area, inradius)`. -/
noncomputable def weight_triangle_general (a b c thickness density : ℝ) :
    ℝ × ℝ × ℝ :=
  if a + b ≤ c ∨ b + c ≤ a ∨ c + a ≤ b then (0, 0, 0)
  else
    let P := a + b + c
    let s := P / 2
    let A0_sq := s * (s - a) * (s - b) * (s - c)
    if A0_sq ≤ 0 then (0, 0, 0)
    else
      let A0 := Real.sqrt A0_sq
      let r := A0 / s
      if thickness ≥ r then (0, 0, r)
      else
        let wall_area := thickness * P - thickness ^ 2 * (s ^ 2 / A0)
        if wall_area ≤ 0 then (0, 0, r)
        else
          let weight := wall_area * (1 / 1000000) * density
          (weight, wall_area, r)

/-- The shape/inputs dictionary passed to `mother_od_from_perimeter` in
app.py: one constructor per branch of the Python if/elif chain
(`"Triangle"` dispatches on whether the dict has a `side` key or `a,b,c`;
`other` covers the final `else` branch, e.g. `"Circle"`). -/
inductive ShapeInputs where
  | square (OD : ℝ)
  | rectangle (L W : ℝ)
  | oval (major minor : ℝ)
  | triangleSide (side : ℝ)
  | triangleABC (a b c : ℝ)
  | other

/-- Embeds `mother_od_from_perimeter` of app.py: outer perimeter `P` per
shape, then `D = P / PI` with `PI = 22/7`. -/
noncomputable def mother_od_from_perimeter : ShapeInputs → ℝ
  | .square OD => (4 * OD) / (PI : ℝ)
  | .rectangle L W => (2 * (L + W)) / (PI : ℝ)
  | .oval major minor =>
      let a := major / 2
      let b := minor / 2
      ((PI : ℝ) * (3 * (a + b) - Real.sqrt ((3 * a + b) * (a + 3 * b)))) /
        (PI : ℝ)
  | .triangleSide side => (3 * side) / (PI : ℝ)
  | .triangleABC a b c => (a + b + c) / (PI : ℝ)
  | .other => 0

end App

namespace Dummy

/-- Embeds `weight_circle` of dummy.py (`math.pi`): returns
`(weight, area_mm2, ID)`. -/
noncomputable def weight_circle (OD thickness density : ℝ) : ℝ × ℝ × ℝ :=
  let ID := OD - 2 * thickness
  if ID < 0 then (0, 0, 0)
  else
    let area_mm2 := (Real.pi / 4) * (OD ^ 2 - ID ^ 2)
    let weight := area_mm2 * (1 / 1000000) * density
    (weight, area_mm2, ID)

/-- Embeds `weight_square` of dummy.py: returns `(weight, area_mm2)`. -/
noncomputable def weight_square (OD thickness density : ℝ) : ℝ × ℝ :=
  let ID := OD - 2 * thickness
  if ID < 0 then (0, 0)
  else
    let area_mm2 := OD ^ 2 - ID ^ 2
    let weight := area_mm2 * (1 / 1000000) * density
    (weight, area_mm2)

/-- Embeds `weight_rectangle` of dummy.py: returns `(weight, area_mm2)`. -/
noncomputable def weight_rectangle (L W thickness density : ℝ) : ℝ × ℝ :=
  let ID_L := L - 2 * thickness
  let ID_W := W - 2 * thickness
  if ID_L < 0 ∨ ID_W < 0 then (0, 0)
  else
    let area_mm2 := L * W - ID_L * ID_W
    let weight := area_mm2 * (1 / 1000000) * density
    (weight, area_mm2)

/-- Embeds `weight_oval` of dummy.py (`math.pi`): returns
`(weight, area_mm2)`. -/
noncomputable def weight_oval (major minor thickness density : ℝ) : ℝ × ℝ :=
  let a_o := major / 2
  let b_o := minor / 2
  let a_i := a_o - thickness
  let b_i := b_o - thickness
  if a_i < 0 ∨ b_i < 0 then (0, 0)
  else
    let area_mm2 := Real.pi * a_o * b_o - Real.pi * a_i * b_i
    let weight := area_mm2 * (1 / 1000000) * density
    (weight, area_mm2)

/-- Embeds `weight_triangle` of dummy.py (equilateral only): returns
`(weight, area_mm2)`. -/
noncomputable def weight_triangle (side thickness density : ℝ) : ℝ × ℝ :=
  let s_o := side
  let s_i := side - 2 * thickness / Real.sin (60 * Real.pi / 180)
  if s_i < 0 then (0, 0)
  else
    let outer_area := (Real.sqrt 3 / 4) * s_o ^ 2
    let inner_area := (Real.sqrt 3 / 4) * s_i ^ 2
    let area_mm2 := outer_area - inner_area
    let weight := area_mm2 * (1 / 1000000) * density
    (weight, area_mm2)

/-- Embeds `mother_pipe_diameter` of dummy.py: from the thin-wall annulus
model `A = π * t * (OD - t)`, solves `OD = A/(π t) + t`; returns 0 when
`thickness ≤ 0`. -/
noncomputable def mother_pipe_diameter (area_mm2 thickness : ℝ) : ℝ :=
  if thickness ≤ 0 then 0
  else area_mm2 / (Real.pi * thickness) + thickness

end Dummy

/-- The invariant of §8 of the spec: wall area and mass are non-negative
and mass = area_mm2 * 1e-6 * density. -/
def mass_invariant {K : Type*} [LinearOrderedField K]
    (weight area density : K) : Prop :=
  0 ≤ area ∧ 0 ≤ weight ∧ weight = area * (1 / 1000000) * density

/-- Evaluation helper: `√36 = 6`. -/
lemma sqrt_thirtysix : Real.sqrt 36 = 6 := by
  rw [show (36 : ℝ) = 6 ^ 2 by norm_num, Real.sqrt_sq (by norm_num : (0:ℝ) ≤ 6)]

/-- Positivity of the closed-form scalene wall area below the inradius. -/
lemma wall_area_pos (s A0 t : ℝ) (hs : 0 < s) (hA0 : 0 < A0) (ht : 0 < t)
    (htr : t * s < A0) : 0 < t * (2 * s) - t ^ 2 * (s ^ 2 / A0) := by
  have key : t * (2 * s) - t ^ 2 * (s ^ 2 / A0)
      = t * s * (2 * A0 - t * s) / A0 := by
    field_simp; ring
  rw [key]
  apply div_pos _ hA0
  exact mul_pos (mul_pos ht hs) (by linarith)

/-- The rational approximation `22/7` differs from the transcendental π. -/
lemma rat_227_ne_pi : ((22 / 7 : ℚ) : ℝ) ≠ Real.pi := by
  intro h
  exact irrational_pi ⟨22 / 7, h⟩

/-- Weights differ whenever the areas differ (density nonzero). -/
lemma weight_ne_of_area_ne (A B r : ℝ) (hr : r ≠ 0) (h : A ≠ B) :
    A * (1 / 1000000) * r ≠ B * (1 / 1000000) * r := by
  intro he
  apply h
  have h1 := mul_right_cancel₀ hr he
  exact mul_right_cancel₀ (by norm_num : (1 / 1000000 : ℝ) ≠ 0) h1

/-- Claim C1: for every scalene-triangle input `a, b, c > 0` satisfying the
triangle inequality strictly, with Heron radicand positive and
`0 < thickness < inradius r = A0/s` (`s = (a+b+c)/2`, `A0` the Heron area),
`weight_triangle_general` returns wall area
`thickness*P - thickness^2*(s^2/A0)` with `P = a+b+c`, weight
`= wall area * 1e-6 * density`, and reports `r`; in particular for sides
`(3,4,5)` and thickness `0.5` the wall area is `4.5` mm². -/
theorem C1_scalene :
    (∀ a b c t ρ s A0 r wall : ℝ,
      0 < a → 0 < b → 0 < c →
      c < a + b → a < b + c → b < c + a →
      s = (a + b + c) / 2 →
      0 < s * (s - a) * (s - b) * (s - c) →
      A0 = Real.sqrt (s * (s - a) * (s - b) * (s - c)) →
      r = A0 / s →
      0 < t → t < r →
      wall = t * (a + b + c) - t ^ 2 * (s ^ 2 / A0) →
      App.weight_triangle_general a b c t ρ
        = (wall * (1 / 1000000) * ρ, wall, r))
    ∧ (∀ ρ : ℝ, (App.weight_triangle_general 3 4 5 (1 / 2) ρ).2.1 = 4.5) := by
  constructor
  · intro a b c t ρ s A0 r wall ha hb hc hab hbc hca hs hrad hA0 hr ht htr hwall
    have hs_pos : 0 < s := by rw [hs]; linarith
    have hA0_pos : 0 < A0 := by rw [hA0]; exact Real.sqrt_pos.mpr hrad
    have hts : t * s < A0 := by
      rw [hr] at htr
      exact (lt_div_iff₀ hs_pos).mp htr
    have hP : a + b + c = 2 * s := by rw [hs]; ring
    have hwall_pos : 0 < wall := by
      rw [hwall, hP]
      exact wall_area_pos s A0 t hs_pos hA0_pos ht hts
    subst hs
    subst hA0
    subst hr
    subst hwall
    simp only [App.weight_triangle_general]
    rw [if_neg (by push_neg; exact ⟨by linarith, by linarith, by linarith⟩),
        if_neg (not_le.mpr hrad), if_neg (not_le.mpr htr),
        if_neg (not_le.mpr hwall_pos)]
  · intro ρ
    have h6 : Real.sqrt 36 = 6 := sqrt_thirtysix
    norm_num [App.weight_triangle_general, h6]

/-- Concrete witness instantiating the theorem for claim C1. -/
theorem C1_scalene_witness :
    App.weight_triangle_general 3 4 5 (1 / 2) 7850 =
      ((1 / 2 * (3 + 4 + 5) - (1 / 2) ^ 2 * (((3 + 4 + 5) / 2) ^ 2 /
          Real.sqrt ((3 + 4 + 5) / 2 * ((3 + 4 + 5) / 2 - 3) *
            ((3 + 4 + 5) / 2 - 4) * ((3 + 4 + 5) / 2 - 5)))) * (1 / 1000000) * 7850,
        1 / 2 * (3 + 4 + 5) - (1 / 2) ^ 2 * (((3 + 4 + 5) / 2) ^ 2 /
          Real.sqrt ((3 + 4 + 5) / 2 * ((3 + 4 + 5) / 2 - 3) *
            ((3 + 4 + 5) / 2 - 4) * ((3 + 4 + 5) / 2 - 5))),
        Real.sqrt ((3 + 4 + 5) / 2 * ((3 + 4 + 5) / 2 - 3) *
          ((3 + 4 + 5) / 2 - 4) * ((3 + 4 + 5) / 2 - 5)) / ((3 + 4 + 5) / 2)) :=
  C1_scalene.1 3 4 5 (1 / 2) 7850 ((3 + 4 + 5) / 2)
    (Real.sqrt ((3 + 4 + 5) / 2 * ((3 + 4 + 5) / 2 - 3) *
      ((3 + 4 + 5) / 2 - 4) * ((3 + 4 + 5) / 2 - 5)))
    (Real.sqrt ((3 + 4 + 5) / 2 * ((3 + 4 + 5) / 2 - 3) *
      ((3 + 4 + 5) / 2 - 4) * ((3 + 4 + 5) / 2 - 5)) / ((3 + 4 + 5) / 2))
    (1 / 2 * (3 + 4 + 5) - (1 / 2) ^ 2 * (((3 + 4 + 5) / 2) ^ 2 /
      Real.sqrt ((3 + 4 + 5) / 2 * ((3 + 4 + 5) / 2 - 3) *
        ((3 + 4 + 5) / 2 - 4) * ((3 + 4 + 5) / 2 - 5))))
    (by norm_num) (by norm_num) (by norm_num)
    (by norm_num) (by norm_num) (by norm_num)
    rfl (by norm_num) rfl rfl (by norm_num)
    (by rw [show ((3 : ℝ) + 4 + 5) / 2 * (((3 : ℝ) + 4 + 5) / 2 - 3) *
          (((3 : ℝ) + 4 + 5) / 2 - 4) * (((3 : ℝ) + 4 + 5) / 2 - 5) = 36 by norm_num,
        sqrt_thirtysix]; norm_num)
    rfl

/-- Claim C2: for every shape calculator in both revisions (circle, square,
rectangle, oval, equilateral triangle, scalene triangle), and for every
input with all dimensions, thickness and density strictly positive, the
returned wall area is nonnegative and the returned weight equals
`wall area * 1e-6 * density` exactly; no call returns a negative area or a
negative mass. -/
theorem C2_invariant :
    (∀ OD t ρ : ℚ, 0 < OD → 0 < t → 0 < ρ →
      mass_invariant (App.weight_circle OD t ρ).1 (App.weight_circle OD t ρ).2.1 ρ)
    ∧ (∀ OD t ρ : ℚ, 0 < OD → 0 < t → 0 < ρ →
      mass_invariant (App.weight_square OD t ρ).1 (App.weight_square OD t ρ).2 ρ)
    ∧ (∀ L W t ρ : ℚ, 0 < L → 0 < W → 0 < t → 0 < ρ →
      mass_invariant (App.weight_rectangle L W t ρ).1 (App.weight_rectangle L W t ρ).2 ρ)
    ∧ (∀ major minor t ρ : ℚ, 0 < major → 0 < minor → 0 < t → 0 < ρ →
      mass_invariant (App.weight_oval major minor t ρ).1 (App.weight_oval major minor t ρ).2 ρ)
    ∧ (∀ side t ρ : ℝ, 0 < side → 0 < t → 0 < ρ →
      mass_invariant (App.weight_triangle_equilateral side t ρ).1
        (App.weight_triangle_equilateral side t ρ).2 ρ)
    ∧ (∀ a b c t ρ : ℝ, 0 < a → 0 < b → 0 < c → 0 < t → 0 < ρ →
      mass_invariant (App.weight_triangle_general a b c t ρ).1
        (App.weight_triangle_general a b c t ρ).2.1 ρ)
    ∧ (∀ OD t ρ : ℝ, 0 < OD → 0 < t → 0 < ρ →
      mass_invariant (Dummy.weight_circle OD t ρ).1 (Dummy.weight_circle OD t ρ).2.1 ρ)
    ∧ (∀ OD t ρ : ℝ, 0 < OD → 0 < t → 0 < ρ →
      mass_invariant (Dummy.weight_square OD t ρ).1 (Dummy.weight_square OD t ρ).2 ρ)
    ∧ (∀ L W t ρ : ℝ, 0 < L → 0 < W → 0 < t → 0 < ρ →
      mass_invariant (Dummy.weight_rectangle L W t ρ).1 (Dummy.weight_rectangle L W t ρ).2 ρ)
    ∧ (∀ major minor t ρ : ℝ, 0 < major → 0 < minor → 0 < t → 0 < ρ →
      mass_invariant (Dummy.weight_oval major minor t ρ).1 (Dummy.weight_oval major minor t ρ).2 ρ)
    ∧ (∀ side t ρ : ℝ, 0 < side → 0 < t → 0 < ρ →
      mass_invariant (Dummy.weight_triangle side t ρ).1 (Dummy.weight_triangle side t ρ).2 ρ) := by
  have zero_inv : ∀ (K : Type) (inst : LinearOrderedField K) (ρ : K),
      mass_invariant (0 : K) 0 ρ := by
    intro K inst ρ; exact ⟨le_refl _, le_refl _, by ring⟩
  refine ⟨?_, ?_, ?_, ?_, ?_, ?_, ?_, ?_, ?_, ?_, ?_⟩
  · intro OD t ρ hOD ht hρ
    simp only [App.weight_circle]
    split_ifs with h
    · exact zero_inv ℚ _ ρ
    · have harea : 0 ≤ App.PI / 4 * (OD ^ 2 - (OD - 2 * t) ^ 2) := by
        have h1 : 0 ≤ OD ^ 2 - (OD - 2 * t) ^ 2 := by nlinarith
        have h2 : 0 ≤ App.PI / 4 := by norm_num [App.PI]
        exact mul_nonneg h2 h1
      exact ⟨harea, mul_nonneg (mul_nonneg harea (by norm_num)) hρ.le, by ring⟩
  · intro OD t ρ hOD ht hρ
    simp only [App.weight_square]
    split_ifs with h
    · exact zero_inv ℚ _ ρ
    · have harea : 0 ≤ OD ^ 2 - (OD - 2 * t) ^ 2 := by nlinarith
      exact ⟨harea, mul_nonneg (mul_nonneg harea (by norm_num)) hρ.le, by ring⟩
  · intro L W t ρ hL hW ht hρ
    simp only [App.weight_rectangle]
    split_ifs with h
    · exact zero_inv ℚ _ ρ
    · push_neg at h
      obtain ⟨h1, h2⟩ := h
      have harea : 0 ≤ L * W - (L - 2 * t) * (W - 2 * t) := by nlinarith
      exact ⟨harea, mul_nonneg (mul_nonneg harea (by norm_num)) hρ.le, by ring⟩
  · intro major minor t ρ hmaj hmin ht hρ
    simp only [App.weight_oval]
    split_ifs with h
    · exact zero_inv ℚ _ ρ
    · push_neg at h
      obtain ⟨h1, h2⟩ := h
      have hPI : (0:ℚ) < App.PI := by norm_num [App.PI]
      have harea : 0 ≤ App.PI * (major / 2) * (minor / 2)
          - App.PI * (major / 2 - t) * (minor / 2 - t) := by
        nlinarith [mul_nonneg hPI.le (mul_nonneg ht.le h1),
          mul_nonneg hPI.le (mul_nonneg ht.le (by linarith : (0:ℚ) ≤ minor / 2))]
      exact ⟨harea, mul_nonneg (mul_nonneg harea (by norm_num)) hρ.le, by ring⟩
  · intro side t ρ hside ht hρ
    simp only [App.weight_triangle_equilateral]
    split_ifs with h
    · exact zero_inv ℝ _ ρ
    · rw [not_lt] at h
      have hsin : Real.sin (60 * Real.pi / 180) = Real.sqrt 3 / 2 := by
        rw [show (60 : ℝ) * Real.pi / 180 = Real.pi / 3 by ring,
          Real.sin_pi_div_three]
      have hsq3 : 0 < Real.sqrt 3 := Real.sqrt_pos.mpr (by norm_num)
      have hlt : side - 2 * t / Real.sin (60 * Real.pi / 180) ≤ side := by
        rw [hsin]
        have : 0 < 2 * t / (Real.sqrt 3 / 2) := by positivity
        linarith
      have harea : 0 ≤ Real.sqrt 3 / 4 * side ^ 2
          - Real.sqrt 3 / 4 * (side - 2 * t / Real.sin (60 * Real.pi / 180)) ^ 2 := by
        have hsq : (side - 2 * t / Real.sin (60 * Real.pi / 180)) ^ 2 ≤ side ^ 2 :=
          pow_le_pow_left₀ h hlt 2
        nlinarith
      exact ⟨harea, mul_nonneg (mul_nonneg harea (by norm_num)) hρ.le, by ring⟩
  · intro a b c t ρ ha hb hc ht hρ
    simp only [App.weight_triangle_general]
    split_ifs with h1 h2 h3 h4
    · exact zero_inv ℝ _ ρ
    · exact zero_inv ℝ _ ρ
    · exact ⟨le_refl _, le_refl _, by ring⟩
    · exact ⟨le_refl _, le_refl _, by ring⟩
    · rw [not_le] at h4
      exact ⟨h4.le, mul_nonneg (mul_nonneg h4.le (by norm_num)) hρ.le, by ring⟩
  · intro OD t ρ hOD ht hρ
    simp only [Dummy.weight_circle]
    split_ifs with h
    · exact zero_inv ℝ _ ρ
    · have harea : 0 ≤ Real.pi / 4 * (OD ^ 2 - (OD - 2 * t) ^ 2) := by
        have h1 : 0 ≤ OD ^ 2 - (OD - 2 * t) ^ 2 := by nlinarith
        have h2 : 0 ≤ Real.pi / 4 := by positivity
        exact mul_nonneg h2 h1
      exact ⟨harea, mul_nonneg (mul_nonneg harea (by norm_num)) hρ.le, by ring⟩
  · intro OD t ρ hOD ht hρ
    simp only [Dummy.weight_square]
    split_ifs with h
    · exact zero_inv ℝ _ ρ
    · have harea : 0 ≤ OD ^ 2 - (OD - 2 * t) ^ 2 := by nlinarith
      exact ⟨harea, mul_nonneg (mul_nonneg harea (by norm_num)) hρ.le, by ring⟩
  · intro L W t ρ hL hW ht hρ
    simp only [Dummy.weight_rectangle]
    split_ifs with h
    · exact zero_inv ℝ _ ρ
    · push_neg at h
      obtain ⟨h1, h2⟩ := h
      have harea : 0 ≤ L * W - (L - 2 * t) * (W - 2 * t) := by nlinarith
      exact ⟨harea, mul_nonneg (mul_nonneg harea (by norm_num)) hρ.le, by ring⟩
  · intro major minor t ρ hmaj hmin ht hρ
    simp only [Dummy.weight_oval]
    split_ifs with h
    · exact zero_inv ℝ _ ρ
    · push_neg at h
      obtain ⟨h1, h2⟩ := h
      have hPI : (0:ℝ) < Real.pi := Real.pi_pos
      have harea : 0 ≤ Real.pi * (major / 2) * (minor / 2)
          - Real.pi * (major / 2 - t) * (minor / 2 - t) := by
        nlinarith [mul_nonneg hPI.le (mul_nonneg ht.le h1),
          mul_nonneg hPI.le (mul_nonneg ht.le (by linarith : (0:ℝ) ≤ minor / 2))]
      exact ⟨harea, mul_nonneg (mul_nonneg harea (by norm_num)) hρ.le, by ring⟩
  · intro side t ρ hside ht hρ
    simp only [Dummy.weight_triangle]
    split_ifs with h
    · exact zero_inv ℝ _ ρ
    · rw [not_lt] at h
      have hsin : Real.sin (60 * Real.pi / 180) = Real.sqrt 3 / 2 := by
        rw [show (60 : ℝ) * Real.pi / 180 = Real.pi / 3 by ring,
          Real.sin_pi_div_three]
      have hsq3 : 0 < Real.sqrt 3 := Real.sqrt_pos.mpr (by norm_num)
      have hlt : side - 2 * t / Real.sin (60 * Real.pi / 180) ≤ side := by
        rw [hsin]
        have : 0 < 2 * t / (Real.sqrt 3 / 2) := by positivity
        linarith
      have harea : 0 ≤ Real.sqrt 3 / 4 * side ^ 2
          - Real.sqrt 3 / 4 * (side - 2 * t / Real.sin (60 * Real.pi / 180)) ^ 2 := by
        have hsq : (side - 2 * t / Real.sin (60 * Real.pi / 180)) ^ 2 ≤ side ^ 2 :=
          pow_le_pow_left₀ h hlt 2
        nlinarith
      exact ⟨harea, mul_nonneg (mul_nonneg harea (by norm_num)) hρ.le, by ring⟩

/-- Concrete witness instantiating the theorem for claim C2. -/
theorem C2_invariant_witness :
    mass_invariant (App.weight_circle 25 1 7850).1 (App.weight_circle 25 1 7850).2.1 7850
    ∧ mass_invariant (App.weight_square 25 1 7850).1 (App.weight_square 25 1 7850).2 7850
    ∧ mass_invariant (App.weight_rectangle 40 25 1 7850).1
        (App.weight_rectangle 40 25 1 7850).2 7850
    ∧ mass_invariant (App.weight_oval 40 25 1 7850).1 (App.weight_oval 40 25 1 7850).2 7850
    ∧ mass_invariant (App.weight_triangle_equilateral 25 1 7850).1
        (App.weight_triangle_equilateral 25 1 7850).2 7850
    ∧ mass_invariant (App.weight_triangle_general 3 4 5 (1 / 2) 7850).1
        (App.weight_triangle_general 3 4 5 (1 / 2) 7850).2.1 7850
    ∧ mass_invariant (Dummy.weight_circle 25 1 7850).1 (Dummy.weight_circle 25 1 7850).2.1 7850
    ∧ mass_invariant (Dummy.weight_square 25 1 7850).1 (Dummy.weight_square 25 1 7850).2 7850
    ∧ mass_invariant (Dummy.weight_rectangle 40 25 1 7850).1
        (Dummy.weight_rectangle 40 25 1 7850).2 7850
    ∧ mass_invariant (Dummy.weight_oval 40 25 1 7850).1 (Dummy.weight_oval 40 25 1 7850).2 7850
    ∧ mass_invariant (Dummy.weight_triangle 25 1 7850).1 (Dummy.weight_triangle 25 1 7850).2 7850 :=
  ⟨C2_invariant.1 25 1 7850 (by norm_num) (by norm_num) (by norm_num),
    C2_invariant.2.1 25 1 7850 (by norm_num) (by norm_num) (by norm_num),
    C2_invariant.2.2.1 40 25 1 7850 (by norm_num) (by norm_num) (by norm_num) (by norm_num),
    C2_invariant.2.2.2.1 40 25 1 7850 (by norm_num) (by norm_num) (by norm_num) (by norm_num),
    C2_invariant.2.2.2.2.1 25 1 7850 (by norm_num) (by norm_num) (by norm_num),
    C2_invariant.2.2.2.2.2.1 3 4 5 (1 / 2) 7850 (by norm_num) (by norm_num) (by norm_num)
      (by norm_num) (by norm_num),
    C2_invariant.2.2.2.2.2.2.1 25 1 7850 (by norm_num) (by norm_num) (by norm_num),
    C2_invariant.2.2.2.2.2.2.2.1 25 1 7850 (by norm_num) (by norm_num) (by norm_num),
    C2_invariant.2.2.2.2.2.2.2.2.1 40 25 1 7850 (by norm_num) (by norm_num) (by norm_num)
      (by norm_num),
    C2_invariant.2.2.2.2.2.2.2.2.2.1 40 25 1 7850 (by norm_num) (by norm_num) (by norm_num)
      (by norm_num),
    C2_invariant.2.2.2.2.2.2.2.2.2.2 25 1 7850 (by norm_num) (by norm_num) (by norm_num)⟩

/-- Claim C3: for every `OD, thickness, density > 0`, `weight_circle`
returns the all-zero result if and only if the inner diameter
`OD - 2*thickness` is negative; `weight_circle(2, 1.5, 7850)` has inner
diameter `-1` and yields the degenerate all-zero outcome, while every input
with `OD - 2*thickness ≥ 0` yields a strictly positive wall area and
weight. Both revisions are covered. -/
theorem C3_circle_degeneracy :
    (∀ OD t ρ : ℚ, 0 < OD → 0 < t → 0 < ρ →
      ((App.weight_circle OD t ρ = (0, 0, 0) ↔ OD - 2 * t < 0)
        ∧ (0 ≤ OD - 2 * t →
            0 < (App.weight_circle OD t ρ).2.1 ∧ 0 < (App.weight_circle OD t ρ).1)))
    ∧ (∀ OD t ρ : ℝ, 0 < OD → 0 < t → 0 < ρ →
      ((Dummy.weight_circle OD t ρ = (0, 0, 0) ↔ OD - 2 * t < 0)
        ∧ (0 ≤ OD - 2 * t →
            0 < (Dummy.weight_circle OD t ρ).2.1 ∧ 0 < (Dummy.weight_circle OD t ρ).1)))
    ∧ ((2 : ℚ) - 2 * (3 / 2) = -1 ∧ App.weight_circle 2 (3 / 2) 7850 = (0, 0, 0)
        ∧ Dummy.weight_circle 2 (3 / 2) 7850 = (0, 0, 0)) := by
  refine ⟨?_, ?_, ?_⟩
  · intro OD t ρ hOD ht hρ
    by_cases h : OD - 2 * t < 0
    · constructor
      · simp [App.weight_circle, h]
      · intro h2; linarith
    · have hID : 0 ≤ OD - 2 * t := le_of_not_lt h
      have harea : 0 < (App.PI / 4) * (OD ^ 2 - (OD - 2 * t) ^ 2) := by
        have h1 : 0 < OD ^ 2 - (OD - 2 * t) ^ 2 := by nlinarith
        have hpi : 0 < App.PI / 4 := by norm_num [App.PI]
        positivity
      constructor
      · simp only [App.weight_circle, if_neg h]
        constructor
        · intro heq
          rw [Prod.mk.injEq, Prod.mk.injEq] at heq
          exact absurd heq.2.1 (ne_of_gt harea)
        · intro hlt; linarith
      · intro _
        simp only [App.weight_circle, if_neg h]
        refine ⟨harea, ?_⟩
        positivity
  · intro OD t ρ hOD ht hρ
    by_cases h : OD - 2 * t < 0
    · constructor
      · simp [Dummy.weight_circle, h]
      · intro h2; linarith
    · have hID : 0 ≤ OD - 2 * t := le_of_not_lt h
      have harea : 0 < (Real.pi / 4) * (OD ^ 2 - (OD - 2 * t) ^ 2) := by
        have h1 : 0 < OD ^ 2 - (OD - 2 * t) ^ 2 := by nlinarith
        have hpi : 0 < Real.pi / 4 := by positivity
        positivity
      constructor
      · simp only [Dummy.weight_circle, if_neg h]
        constructor
        · intro heq
          rw [Prod.mk.injEq, Prod.mk.injEq] at heq
          exact absurd heq.2.1 (ne_of_gt harea)
        · intro hlt; linarith
      · intro _
        simp only [Dummy.weight_circle, if_neg h]
        refine ⟨harea, ?_⟩
        positivity
  · refine ⟨by norm_num, by norm_num [App.weight_circle], ?_⟩
    norm_num [Dummy.weight_circle]

/-- Concrete witness instantiating the theorem for claim C3. -/
theorem C3_circle_degeneracy_witness :
    ((App.weight_circle 25 1 7850 = (0, 0, 0) ↔ (25 : ℚ) - 2 * 1 < 0)
      ∧ (0 ≤ (25 : ℚ) - 2 * 1 →
          0 < (App.weight_circle 25 1 7850).2.1 ∧ 0 < (App.weight_circle 25 1 7850).1))
    ∧ ((Dummy.weight_circle 25 1 7850 = (0, 0, 0) ↔ (25 : ℝ) - 2 * 1 < 0)
      ∧ (0 ≤ (25 : ℝ) - 2 * 1 →
          0 < (Dummy.weight_circle 25 1 7850).2.1 ∧ 0 < (Dummy.weight_circle 25 1 7850).1)) :=
  ⟨C3_circle_degeneracy.1 25 1 7850 (by norm_num) (by norm_num) (by norm_num),
    C3_circle_degeneracy.2.1 25 1 7850 (by norm_num) (by norm_num) (by norm_num)⟩

/-- Claim C4: in the perimeter-equivalence revision (app.py), the
mother-pipe outer diameter equals `P / π` with `π = 22/7` and the per-shape
outer perimeter `P`: Square `4*OD`, Rectangle `2*(L+W)`, Oval the Ramanujan
first-order approximation `π*(3*(a+b) - √((3a+b)*(a+3b)))` over the outer
semi-axes, equilateral Triangle `3*side`, scalene Triangle `a+b+c`; a
Square of `OD = 25` gives `D = 100/(22/7) = 350/11 ≈ 31.81818`, matching
the 5-decimal display. -/
theorem C4_mother_od :
    (∀ OD : ℝ, App.mother_od_from_perimeter (.square OD) = (4 * OD) / (22 / 7))
    ∧ (∀ L W : ℝ,
        App.mother_od_from_perimeter (.rectangle L W) = (2 * (L + W)) / (22 / 7))
    ∧ (∀ major minor : ℝ,
        App.mother_od_from_perimeter (.oval major minor) =
          ((22 / 7) * (3 * (major / 2 + minor / 2) -
            Real.sqrt ((3 * (major / 2) + minor / 2) *
              (major / 2 + 3 * (minor / 2))))) / (22 / 7))
    ∧ (∀ side : ℝ,
        App.mother_od_from_perimeter (.triangleSide side) = (3 * side) / (22 / 7))
    ∧ (∀ a b c : ℝ,
        App.mother_od_from_perimeter (.triangleABC a b c) = (a + b + c) / (22 / 7))
    ∧ (App.mother_od_from_perimeter (.square 25) = 350 / 11
        ∧ |App.mother_od_from_perimeter (.square 25) - 31.81818| < 1 / 100000) := by
  refine ⟨?_, ?_, ?_, ?_, ?_, ?_, ?_⟩
  · intro OD; simp [App.mother_od_from_perimeter, App.PI]
  · intro L W; simp [App.mother_od_from_perimeter, App.PI]
  · intro major minor; simp [App.mother_od_from_perimeter, App.PI]
  · intro side; simp [App.mother_od_from_perimeter, App.PI]
  · intro a b c; simp [App.mother_od_from_perimeter, App.PI]
  · simp [App.mother_od_from_perimeter, App.PI]; norm_num
  · simp [App.mother_od_from_perimeter, App.PI, abs_lt]; norm_num

/-- Claim C5, counterexample: the claim states that
`weight_circle(25, 1, 7850)` in the `π = 22/7` revision returns mass
`0.592147` kg/m up to floating tolerance; in fact the exact mass is
`5181/8750 = 0.59211428...`, which differs from `0.592147` by more than
`1/100000`, far beyond any floating rounding of the formula. -/
theorem C5_counterexample :
    1 / 100000 < |(App.weight_circle 25 1 7850).1 - 0.592147| := by
  norm_num [App.weight_circle, App.PI, lt_abs]

/-- Claim C5, amended: `weight_circle(25, 1, 7850)` in the `π = 22/7`
revision returns `ID = 23`, wall area `= 528/7 = 75.42857... ≈ 75.4286` mm²
(up to floating tolerance) and mass `= 5181/8750 = 0.59211428... ≈ 0.592114`
kg/m (up to floating tolerance), not `0.592147`. -/
theorem C5_amended :
    (App.weight_circle 25 1 7850).2.2 = 23
      ∧ (App.weight_circle 25 1 7850).2.1 = 528 / 7
      ∧ (App.weight_circle 25 1 7850).1 = 5181 / 8750
      ∧ |(App.weight_circle 25 1 7850).2.1 - 75.4286| < 1 / 10000
      ∧ |(App.weight_circle 25 1 7850).1 - 0.592114| < 1 / 1000000 := by
  norm_num [App.weight_circle, App.PI, abs_lt]

/-- Claim C6: `weight_triangle_general` checks its preconditions in the
order triangle-inequality, Heron radicand, inradius, wall-area sign, and
reports the first violated one: any triangle-inequality violation (in
particular sides `(1,1,3)`) returns the invalid-triangle outcome with
reported inradius `0` regardless of thickness, whereas a valid triangle
with `thickness ≥ inradius` (in particular `(3,4,5)` with thickness
`1.0 = r`) returns the thickness-exceeds-inradius outcome with the computed
inradius surfaced in the result. -/
theorem C6_check_order :
    (∀ a b c t ρ : ℝ, (a + b ≤ c ∨ b + c ≤ a ∨ c + a ≤ b) →
      App.weight_triangle_general a b c t ρ = (0, 0, 0))
    ∧ (∀ a b c t ρ s A0 r : ℝ,
      0 < a → 0 < b → 0 < c →
      c < a + b → a < b + c → b < c + a →
      s = (a + b + c) / 2 →
      0 < s * (s - a) * (s - b) * (s - c) →
      A0 = Real.sqrt (s * (s - a) * (s - b) * (s - c)) →
      r = A0 / s →
      t ≥ r →
      App.weight_triangle_general a b c t ρ = (0, 0, r))
    ∧ (∀ t ρ : ℝ, App.weight_triangle_general 1 1 3 t ρ = (0, 0, 0))
    ∧ (∀ ρ : ℝ, App.weight_triangle_general 3 4 5 1 ρ = (0, 0, 1)) := by
  refine ⟨?_, ?_, ?_, ?_⟩
  · intro a b c t ρ h
    simp only [App.weight_triangle_general]
    rw [if_pos h]
  · intro a b c t ρ s A0 r ha hb hc hab hbc hca hs hrad hA0 hr htr
    subst hs; subst hA0; subst hr
    simp only [App.weight_triangle_general]
    rw [if_neg (by push_neg; exact ⟨by linarith, by linarith, by linarith⟩),
        if_neg (not_le.mpr hrad), if_pos htr]
  · intro t ρ
    norm_num [App.weight_triangle_general]
  · intro ρ
    have h6 : Real.sqrt 36 = 6 := sqrt_thirtysix
    norm_num [App.weight_triangle_general, h6]

/-- Concrete witness instantiating the theorem for claim C6. -/
theorem C6_check_order_witness :
    App.weight_triangle_general 1 2 5 1 7850 = (0, 0, 0)
    ∧ App.weight_triangle_general 3 4 5 2 7850 =
        (0, 0, Real.sqrt ((3 + 4 + 5) / 2 * ((3 + 4 + 5) / 2 - 3) *
          ((3 + 4 + 5) / 2 - 4) * ((3 + 4 + 5) / 2 - 5)) / ((3 + 4 + 5) / 2))
    ∧ App.weight_triangle_general 1 1 3 1 7850 = (0, 0, 0)
    ∧ App.weight_triangle_general 3 4 5 1 7850 = (0, 0, 1) :=
  ⟨C6_check_order.1 1 2 5 1 7850 (Or.inl (by norm_num)),
    C6_check_order.2.1 3 4 5 2 7850 ((3 + 4 + 5) / 2)
      (Real.sqrt ((3 + 4 + 5) / 2 * ((3 + 4 + 5) / 2 - 3) *
        ((3 + 4 + 5) / 2 - 4) * ((3 + 4 + 5) / 2 - 5)))
      (Real.sqrt ((3 + 4 + 5) / 2 * ((3 + 4 + 5) / 2 - 3) *
        ((3 + 4 + 5) / 2 - 4) * ((3 + 4 + 5) / 2 - 5)) / ((3 + 4 + 5) / 2))
      (by norm_num) (by norm_num) (by norm_num)
      (by norm_num) (by norm_num) (by norm_num)
      rfl (by norm_num) rfl rfl
      (by rw [show ((3 : ℝ) + 4 + 5) / 2 * (((3 : ℝ) + 4 + 5) / 2 - 3) *
            (((3 : ℝ) + 4 + 5) / 2 - 4) * (((3 : ℝ) + 4 + 5) / 2 - 5) = 36 by norm_num,
          sqrt_thirtysix]; norm_num),
    C6_check_order.2.2.1 1 7850,
    C6_check_order.2.2.2 7850⟩

/-- Claim C7: for every `side, thickness, density > 0`, the
equilateral-triangle calculator (in both revisions) computes inner side
`s_i = side - 2*thickness/sin(60°)`, returns the zero result when
`s_i < 0`, and otherwise returns wall area
`(√3/4)*side^2 - (√3/4)*s_i^2` with weight `= wall area * 1e-6 * density`. -/
theorem C7_equilateral :
    ∀ side t ρ si : ℝ, 0 < side → 0 < t → 0 < ρ →
      si = side - 2 * t / Real.sin (60 * Real.pi / 180) →
      ((si < 0 → App.weight_triangle_equilateral side t ρ = (0, 0)
          ∧ Dummy.weight_triangle side t ρ = (0, 0))
        ∧ (0 ≤ si →
          App.weight_triangle_equilateral side t ρ =
            ((Real.sqrt 3 / 4 * side ^ 2 - Real.sqrt 3 / 4 * si ^ 2)
                * (1 / 1000000) * ρ,
              Real.sqrt 3 / 4 * side ^ 2 - Real.sqrt 3 / 4 * si ^ 2)
          ∧ Dummy.weight_triangle side t ρ =
            ((Real.sqrt 3 / 4 * side ^ 2 - Real.sqrt 3 / 4 * si ^ 2)
                * (1 / 1000000) * ρ,
              Real.sqrt 3 / 4 * side ^ 2 - Real.sqrt 3 / 4 * si ^ 2))) := by
  intro side t ρ si _ _ _ hsi
  subst hsi
  constructor
  · intro h
    constructor
    · simp only [App.weight_triangle_equilateral]
      rw [if_pos h]
    · simp only [Dummy.weight_triangle]
      rw [if_pos h]
  · intro h
    constructor
    · simp only [App.weight_triangle_equilateral]
      rw [if_neg (not_lt.mpr h)]
    · simp only [Dummy.weight_triangle]
      rw [if_neg (not_lt.mpr h)]

/-- Concrete witness instantiating the theorem for claim C7. -/
theorem C7_equilateral_witness :
    ((25 : ℝ) - 2 * 1 / Real.sin (60 * Real.pi / 180) < 0 →
        App.weight_triangle_equilateral 25 1 7850 = (0, 0)
        ∧ Dummy.weight_triangle 25 1 7850 = (0, 0))
    ∧ (0 ≤ (25 : ℝ) - 2 * 1 / Real.sin (60 * Real.pi / 180) →
        App.weight_triangle_equilateral 25 1 7850 =
          ((Real.sqrt 3 / 4 * 25 ^ 2 -
              Real.sqrt 3 / 4 * (25 - 2 * 1 / Real.sin (60 * Real.pi / 180)) ^ 2)
              * (1 / 1000000) * 7850,
            Real.sqrt 3 / 4 * 25 ^ 2 -
              Real.sqrt 3 / 4 * (25 - 2 * 1 / Real.sin (60 * Real.pi / 180)) ^ 2)
        ∧ Dummy.weight_triangle 25 1 7850 =
          ((Real.sqrt 3 / 4 * 25 ^ 2 -
              Real.sqrt 3 / 4 * (25 - 2 * 1 / Real.sin (60 * Real.pi / 180)) ^ 2)
              * (1 / 1000000) * 7850,
            Real.sqrt 3 / 4 * 25 ^ 2 -
              Real.sqrt 3 / 4 * (25 - 2 * 1 / Real.sin (60 * Real.pi / 180)) ^ 2)) :=
  C7_equilateral 25 1 7850 (25 - 2 * 1 / Real.sin (60 * Real.pi / 180))
    (by norm_num) (by norm_num) (by norm_num) rfl

/-- Claim C8: the oval calculator (in both revisions) checks each inner
semi-axis independently: for every `major, minor, thickness, density > 0`
with `major < 2*thickness`, `weight_oval` returns the zero result even when
`minor ≥ 2*thickness` keeps the other inner semi-axis nonnegative, and
symmetrically for the minor axis. -/
theorem C8_oval_axes :
    (∀ major minor t ρ : ℚ, 0 < major → 0 < minor → 0 < t → 0 < ρ →
      major < 2 * t → 2 * t ≤ minor → App.weight_oval major minor t ρ = (0, 0))
    ∧ (∀ major minor t ρ : ℚ, 0 < major → 0 < minor → 0 < t → 0 < ρ →
      minor < 2 * t → 2 * t ≤ major → App.weight_oval major minor t ρ = (0, 0))
    ∧ (∀ major minor t ρ : ℝ, 0 < major → 0 < minor → 0 < t → 0 < ρ →
      major < 2 * t → 2 * t ≤ minor → Dummy.weight_oval major minor t ρ = (0, 0))
    ∧ (∀ major minor t ρ : ℝ, 0 < major → 0 < minor → 0 < t → 0 < ρ →
      minor < 2 * t → 2 * t ≤ major → Dummy.weight_oval major minor t ρ = (0, 0)) := by
  refine ⟨?_, ?_, ?_, ?_⟩
  · intro major minor t ρ _ _ _ _ hmaj _
    have h : major / 2 - t < 0 ∨ minor / 2 - t < 0 := Or.inl (by linarith)
    simp only [App.weight_oval]; rw [if_pos h]
  · intro major minor t ρ _ _ _ _ hmin _
    have h : major / 2 - t < 0 ∨ minor / 2 - t < 0 := Or.inr (by linarith)
    simp only [App.weight_oval]; rw [if_pos h]
  · intro major minor t ρ _ _ _ _ hmaj _
    have h : major / 2 - t < 0 ∨ minor / 2 - t < 0 := Or.inl (by linarith)
    simp only [Dummy.weight_oval]; rw [if_pos h]
  · intro major minor t ρ _ _ _ _ hmin _
    have h : major / 2 - t < 0 ∨ minor / 2 - t < 0 := Or.inr (by linarith)
    simp only [Dummy.weight_oval]; rw [if_pos h]

/-- Concrete witness instantiating the theorem for claim C8. -/
theorem C8_oval_axes_witness :
    App.weight_oval 1 10 1 7850 = (0, 0)
    ∧ App.weight_oval 10 1 1 7850 = (0, 0)
    ∧ Dummy.weight_oval 1 10 1 7850 = (0, 0)
    ∧ Dummy.weight_oval 10 1 1 7850 = (0, 0) :=
  ⟨C8_oval_axes.1 1 10 1 7850 (by norm_num) (by norm_num) (by norm_num) (by norm_num)
      (by norm_num) (by norm_num),
    C8_oval_axes.2.1 10 1 1 7850 (by norm_num) (by norm_num) (by norm_num) (by norm_num)
      (by norm_num) (by norm_num),
    C8_oval_axes.2.2.1 1 10 1 7850 (by norm_num) (by norm_num) (by norm_num) (by norm_num)
      (by norm_num) (by norm_num),
    C8_oval_axes.2.2.2 10 1 1 7850 (by norm_num) (by norm_num) (by norm_num) (by norm_num)
      (by norm_num) (by norm_num)⟩

/-- Claim C9, counterexample: the claim states that every shape calculator
of the `22/7` revision and the corresponding calculator of the `math.pi`
revision return different numeric results on every valid input; but the
square calculator uses no π at all, and on the valid input
`(OD, thickness, density) = (25, 1, 7850)` both revisions return exactly
the same weight and area. -/
theorem C9_counterexample :
    ((App.weight_square 25 1 7850).1 : ℝ) = (Dummy.weight_square 25 1 7850).1
      ∧ ((App.weight_square 25 1 7850).2 : ℝ) = (Dummy.weight_square 25 1 7850).2 := by
  norm_num [App.weight_square, Dummy.weight_square]

/-- Claim C9, amended: switching the π constant between `math.pi` and
`22/7` changes the output of exactly the π-dependent calculators: on every
valid input the circle and oval calculators of the two revisions return
different weights and areas, while the square, rectangle and
equilateral-triangle calculators (which never consult the π constant — the
equilateral one uses `math.sin`/`math.sqrt` only) return identical results
in both revisions. -/
theorem C9_amended :
    (∀ OD t ρ : ℚ, 0 < OD → 0 < t → 0 < ρ → 0 ≤ OD - 2 * t →
      (((App.weight_circle OD t ρ).1 : ℝ) ≠ (Dummy.weight_circle OD t ρ).1
        ∧ ((App.weight_circle OD t ρ).2.1 : ℝ) ≠ (Dummy.weight_circle OD t ρ).2.1))
    ∧ (∀ major minor t ρ : ℚ, 0 < major → 0 < minor → 0 < t → 0 < ρ →
        0 ≤ major / 2 - t → 0 ≤ minor / 2 - t →
      (((App.weight_oval major minor t ρ).1 : ℝ) ≠ (Dummy.weight_oval major minor t ρ).1
        ∧ ((App.weight_oval major minor t ρ).2 : ℝ) ≠ (Dummy.weight_oval major minor t ρ).2))
    ∧ (∀ OD t ρ : ℚ,
      ((App.weight_square OD t ρ).1 : ℝ) = (Dummy.weight_square OD t ρ).1
        ∧ ((App.weight_square OD t ρ).2 : ℝ) = (Dummy.weight_square OD t ρ).2)
    ∧ (∀ L W t ρ : ℚ,
      ((App.weight_rectangle L W t ρ).1 : ℝ) = (Dummy.weight_rectangle L W t ρ).1
        ∧ ((App.weight_rectangle L W t ρ).2 : ℝ) = (Dummy.weight_rectangle L W t ρ).2)
    ∧ (∀ side t ρ : ℝ,
      App.weight_triangle_equilateral side t ρ = Dummy.weight_triangle side t ρ) := by
  refine ⟨?_, ?_, ?_, ?_, ?_⟩
  · intro OD t ρ hOD ht hρ hID
    have hIDq : ¬ (OD - 2 * t < 0) := not_lt.mpr hID
    have hIDr : ¬ ((OD : ℝ) - 2 * (t : ℝ) < 0) := by push_neg; exact_mod_cast hID
    have hX : (0:ℝ) < (OD : ℝ) ^ 2 - ((OD : ℝ) - 2 * (t : ℝ)) ^ 2 := by
      have ht' : (0:ℝ) < (t : ℝ) := by exact_mod_cast ht
      have hOD' : (0:ℝ) < (OD : ℝ) := by exact_mod_cast hOD
      have hID' : (0:ℝ) ≤ (OD : ℝ) - 2 * (t : ℝ) := by exact_mod_cast hID
      nlinarith
    have hρ' : (0:ℝ) < (ρ : ℝ) := by exact_mod_cast hρ
    have hne : ((App.PI : ℝ) / 4) * ((OD : ℝ) ^ 2 - ((OD : ℝ) - 2 * (t : ℝ)) ^ 2)
        ≠ (Real.pi / 4) * ((OD : ℝ) ^ 2 - ((OD : ℝ) - 2 * (t : ℝ)) ^ 2) := by
      intro h
      have h227 : ((App.PI : ℝ)) = Real.pi := by
        have h4 : ((App.PI : ℝ) / 4) = (Real.pi / 4) :=
          mul_right_cancel₀ (ne_of_gt hX) h
        linarith
      exact rat_227_ne_pi (by rw [show (22 / 7 : ℚ) = App.PI from rfl]; exact h227)
    constructor
    · simp only [App.weight_circle, Dummy.weight_circle, if_neg hIDq, if_neg hIDr]
      push_cast
      exact weight_ne_of_area_ne _ _ _ (ne_of_gt hρ') hne
    · simp only [App.weight_circle, Dummy.weight_circle, if_neg hIDq, if_neg hIDr]
      push_cast
      exact hne
  · intro major minor t ρ hmaj hmin ht hρ h1 h2
    have hcondq : ¬ ((major : ℚ) / 2 - t < 0 ∨ (minor : ℚ) / 2 - t < 0) := by
      push_neg; exact ⟨h1, h2⟩
    have h1' : (0:ℝ) ≤ (major : ℝ) / 2 - (t : ℝ) := by exact_mod_cast h1
    have h2' : (0:ℝ) ≤ (minor : ℝ) / 2 - (t : ℝ) := by exact_mod_cast h2
    have hcondr : ¬ ((major : ℝ) / 2 - (t : ℝ) < 0 ∨ (minor : ℝ) / 2 - (t : ℝ) < 0) := by
      push_neg; exact ⟨h1', h2'⟩
    have ht' : (0:ℝ) < (t : ℝ) := by exact_mod_cast ht
    have hmin' : (0:ℝ) < (minor : ℝ) := by exact_mod_cast hmin
    have hρ' : (0:ℝ) < (ρ : ℝ) := by exact_mod_cast hρ
    have hX : (0:ℝ) < (major : ℝ) / 2 * ((minor : ℝ) / 2)
        - ((major : ℝ) / 2 - (t : ℝ)) * ((minor : ℝ) / 2 - (t : ℝ)) := by
      nlinarith [mul_nonneg ht'.le h1']
    have hne : ((App.PI : ℝ)) * ((major : ℝ) / 2) * ((minor : ℝ) / 2)
        - ((App.PI : ℝ)) * ((major : ℝ) / 2 - (t : ℝ)) * ((minor : ℝ) / 2 - (t : ℝ))
        ≠ Real.pi * ((major : ℝ) / 2) * ((minor : ℝ) / 2)
          - Real.pi * ((major : ℝ) / 2 - (t : ℝ)) * ((minor : ℝ) / 2 - (t : ℝ)) := by
      intro heq
      have h3 : ((App.PI : ℝ)) * ((major : ℝ) / 2 * ((minor : ℝ) / 2)
            - ((major : ℝ) / 2 - (t : ℝ)) * ((minor : ℝ) / 2 - (t : ℝ)))
          = Real.pi * ((major : ℝ) / 2 * ((minor : ℝ) / 2)
            - ((major : ℝ) / 2 - (t : ℝ)) * ((minor : ℝ) / 2 - (t : ℝ))) := by
        linear_combination heq
      have h4 := mul_right_cancel₀ (ne_of_gt hX) h3
      exact rat_227_ne_pi (by rw [show (22 / 7 : ℚ) = App.PI from rfl]; exact h4)
    constructor
    · simp only [App.weight_oval, Dummy.weight_oval, if_neg hcondq, if_neg hcondr]
      push_cast
      exact weight_ne_of_area_ne _ _ _ (ne_of_gt hρ') hne
    · simp only [App.weight_oval, Dummy.weight_oval, if_neg hcondq, if_neg hcondr]
      push_cast
      exact hne
  · intro OD t ρ
    by_cases h : (OD : ℚ) - 2 * t < 0
    · have h' : (OD : ℝ) - 2 * (t : ℝ) < 0 := by exact_mod_cast h
      simp [App.weight_square, Dummy.weight_square, h, h']
    · have h' : ¬ ((OD : ℝ) - 2 * (t : ℝ) < 0) := by
        push_neg at h ⊢; exact_mod_cast h
      simp only [App.weight_square, Dummy.weight_square, if_neg h, if_neg h']
      constructor <;> push_cast <;> ring
  · intro L W t ρ
    by_cases h1 : (L : ℚ) - 2 * t < 0
    · have hq : (L : ℚ) < 2 * t ∨ (W : ℚ) < 2 * t := Or.inl (by linarith)
      have hr : (L : ℝ) < 2 * (t : ℝ) ∨ (W : ℝ) < 2 * (t : ℝ) := Or.inl (by
        have : (L : ℝ) - 2 * (t : ℝ) < 0 := by exact_mod_cast h1
        linarith)
      simp [App.weight_rectangle, Dummy.weight_rectangle, hq, hr]
    · by_cases h2 : (W : ℚ) - 2 * t < 0
      · have hq : (L : ℚ) < 2 * t ∨ (W : ℚ) < 2 * t := Or.inr (by linarith)
        have hr : (L : ℝ) < 2 * (t : ℝ) ∨ (W : ℝ) < 2 * (t : ℝ) := Or.inr (by
          have : (W : ℝ) - 2 * (t : ℝ) < 0 := by exact_mod_cast h2
          linarith)
        simp [App.weight_rectangle, Dummy.weight_rectangle, hq, hr]
      · have h1' : ¬ ((L : ℝ) - 2 * (t : ℝ) < 0) := by
          push_neg at h1 ⊢; exact_mod_cast h1
        have h2' : ¬ ((W : ℝ) - 2 * (t : ℝ) < 0) := by
          push_neg at h2 ⊢; exact_mod_cast h2
        have hq : ¬ ((L : ℚ) - 2 * t < 0 ∨ (W : ℚ) - 2 * t < 0) := by
          push_neg at h1 h2 ⊢; exact ⟨h1, h2⟩
        have hr : ¬ ((L : ℝ) - 2 * (t : ℝ) < 0 ∨ (W : ℝ) - 2 * (t : ℝ) < 0) := by
          push_neg at h1' h2' ⊢; exact ⟨h1', h2'⟩
        simp only [App.weight_rectangle, Dummy.weight_rectangle, if_neg hq, if_neg hr]
        constructor <;> push_cast <;> ring
  · intro side t ρ
    rfl

/-- Concrete witness instantiating the theorem for claim C9. -/
theorem C9_amended_witness :
    (((App.weight_circle 25 1 7850).1 : ℝ) ≠
        (Dummy.weight_circle ((25 : ℚ) : ℝ) ((1 : ℚ) : ℝ) ((7850 : ℚ) : ℝ)).1
      ∧ ((App.weight_circle 25 1 7850).2.1 : ℝ) ≠
        (Dummy.weight_circle ((25 : ℚ) : ℝ) ((1 : ℚ) : ℝ) ((7850 : ℚ) : ℝ)).2.1)
    ∧ (((App.weight_oval 40 25 1 7850).1 : ℝ) ≠
        (Dummy.weight_oval ((40 : ℚ) : ℝ) ((25 : ℚ) : ℝ) ((1 : ℚ) : ℝ) ((7850 : ℚ) : ℝ)).1
      ∧ ((App.weight_oval 40 25 1 7850).2 : ℝ) ≠
        (Dummy.weight_oval ((40 : ℚ) : ℝ) ((25 : ℚ) : ℝ) ((1 : ℚ) : ℝ) ((7850 : ℚ) : ℝ)).2)
    ∧ (((App.weight_square 25 1 7850).1 : ℝ) =
        (Dummy.weight_square ((25 : ℚ) : ℝ) ((1 : ℚ) : ℝ) ((7850 : ℚ) : ℝ)).1
      ∧ ((App.weight_square 25 1 7850).2 : ℝ) =
        (Dummy.weight_square ((25 : ℚ) : ℝ) ((1 : ℚ) : ℝ) ((7850 : ℚ) : ℝ)).2)
    ∧ (((App.weight_rectangle 40 25 1 7850).1 : ℝ) =
        (Dummy.weight_rectangle ((40 : ℚ) : ℝ) ((25 : ℚ) : ℝ) ((1 : ℚ) : ℝ) ((7850 : ℚ) : ℝ)).1
      ∧ ((App.weight_rectangle 40 25 1 7850).2 : ℝ) =
        (Dummy.weight_rectangle ((40 : ℚ) : ℝ) ((25 : ℚ) : ℝ) ((1 : ℚ) : ℝ) ((7850 : ℚ) : ℝ)).2)
    ∧ App.weight_triangle_equilateral 25 1 7850 = Dummy.weight_triangle 25 1 7850 :=
  ⟨C9_amended.1 25 1 7850 (by norm_num) (by norm_num) (by norm_num) (by norm_num),
    C9_amended.2.1 40 25 1 7850 (by norm_num) (by norm_num) (by norm_num) (by norm_num)
      (by norm_num) (by norm_num),
    C9_amended.2.2.1 25 1 7850,
    C9_amended.2.2.2.1 40 25 1 7850,
    C9_amended.2.2.2.2 25 1 7850⟩

/-- Claim C10: in the area-equivalence revision (dummy.py), the annulus
model `A = π*t*(OD - t)` is exact for a circular tube, so the estimator
round-trips: for every `OD` and `thickness` with `0 < 2*thickness ≤ OD`,
feeding the wall area returned by `weight_circle(OD, thickness, density)`
into `mother_pipe_diameter(area, thickness)` returns exactly `OD`. -/
theorem C10_roundtrip (OD t ρ : ℝ) (ht : 0 < t) (hle : 2 * t ≤ OD) :
    Dummy.mother_pipe_diameter (Dummy.weight_circle OD t ρ).2.1 t = OD := by
  have hID : ¬ (OD - 2 * t < 0) := by push_neg; linarith
  simp only [Dummy.weight_circle, if_neg hID]
  simp only [Dummy.mother_pipe_diameter, if_neg (not_le.mpr ht)]
  have hπ : Real.pi ≠ 0 := Real.pi_ne_zero
  have ht0 : t ≠ 0 := ne_of_gt ht
  field_simp
  ring

/-- Concrete witness instantiating the theorem for claim C10. -/
theorem C10_roundtrip_witness :
    Dummy.mother_pipe_diameter (Dummy.weight_circle 25 1 7850).2.1 1 = 25 :=
  C10_roundtrip 25 1 7850 (by norm_num) (by norm_num)
